import Mathlib

/-!
Shallow embedding of the marble-run demo (src/src/main.rs) and proofs about
its control and tracking logic.

The source is a Bevy/Rapier application. Its hand-written per-frame logic is
`marble_control_system` (keyboard state to lateral velocity) and
`camera_follow_system` (smoothed camera tracking with a fixed look
direction), plus the one-time `setup_scene` bootstrap. Scalar `f32` values
are embedded as rationals; `Vec3` is a record of three rationals; `Quat`
values are embedded by the smart constructor that built them, since the
source only ever constructs rotations via `Quat::from_rotation_x` and
`Transform::look_at` and only ever compares or copies them whole.
-/

namespace MarbleRun

/-- Embedding of glam `Vec3` with rational components. -/
structure Vec3 where
  x : ℚ
  y : ℚ
  z : ℚ
deriving DecidableEq, Repr

instance : Add Vec3 :=
  ⟨fun a b => ⟨a.x + b.x, a.y + b.y, a.z + b.z⟩⟩

instance : Sub Vec3 :=
  ⟨fun a b => ⟨a.x - b.x, a.y - b.y, a.z - b.z⟩⟩

/-- glam `Vec3::ZERO`. -/
def Vec3.zero : Vec3 := ⟨0, 0, 0⟩

/-- glam `Vec3::Y`, the world up axis. -/
def Vec3.unitY : Vec3 := ⟨0, 1, 0⟩

/-- Scalar linear interpolation as glam implements it for each component:
`self + ((rhs - self) * s)`, with no clamping of `s`. -/
def lerpQ (a b s : ℚ) : ℚ := a + (b - a) * s

/-- glam `Vec3::lerp(self, rhs, s)`: componentwise unclamped interpolation. -/
def Vec3.lerp (a b : Vec3) (s : ℚ) : Vec3 :=
  ⟨lerpQ a.x b.x s, lerpQ a.y b.y s, lerpQ a.z b.z s⟩

/-- Rotations as the source constructs them: `Quat::from_rotation_x(angle)`
for the sloped track pieces, and the orientation produced by
`Transform::look_at(target, up)`, which is a function of exactly the
direction `target - translation` and the up hint. `identity` is the default
rotation of `Transform::from_xyz`. -/
inductive Rotation where
  | identity : Rotation
  | rotX (angle : ℚ) : Rotation
  | lookAlong (forward up : Vec3) : Rotation
deriving DecidableEq, Repr

/-- Embedding of the Bevy `Transform` fields the source reads and writes:
translation and rotation (scale is never touched). -/
structure Transform where
  translation : Vec3
  rotation : Rotation
deriving DecidableEq, Repr

/-- Bevy `Transform::look_at(target, up)`: keeps the translation and replaces
the rotation by the orientation facing `target` from the current
translation with the given up hint. -/
def Transform.look_at (t : Transform) (target up : Vec3) : Transform :=
  { t with rotation := .lookAlong (target - t.translation) up }

/-- Embedding of the Rapier `Velocity` component: linear and angular parts. -/
structure Velocity where
  linvel : Vec3
  angvel : Vec3
deriving DecidableEq, Repr

/-- Keyboard state as `marble_control_system` samples it: whether
`KeyCode::ArrowLeft` and `KeyCode::ArrowRight` are currently pressed. -/
structure KeyState where
  left : Bool
  right : Bool
deriving DecidableEq, Repr

/-- The `control_force` constant of `marble_control_system` (main.rs:181). -/
def control_force : ℚ := 5

/-- The lateral force computed by `marble_control_system` (main.rs:182-190):
start from `0`, add `control_force` while ArrowLeft is pressed, subtract
`control_force` while ArrowRight is pressed. -/
def lateralForce (k : KeyState) : ℚ :=
  let f0 : ℚ := 0
  let f1 : ℚ := if k.left then f0 + control_force else f0
  let f2 : ℚ := if k.right then f1 - control_force else f1
  f2

/-- The body of `marble_control_system` once the `Velocity` of the marble has been
obtained (main.rs:180-196): overwrite `linvel.x` with the lateral force and
touch nothing else. -/
def marbleControlVelocity (k : KeyState) (v : Velocity) : Velocity :=
  { v with linvel := { v.linvel with x := lateralForce k } }

/-- The whole `marble_control_system` run against the query result for
`Query<&mut Velocity, With<Marble>>`: `get_single_mut()` succeeds exactly
when the query matched a single entity; otherwise the `if let Ok` guard
skips the body and nothing changes (main.rs:176-197). -/
def marbleControlSystem (k : KeyState) (marbles : List Velocity) : List Velocity :=
  match marbles with
  | [v] => [marbleControlVelocity k v]
  | vs => vs

/-- The `camera_offset` constant of `camera_follow_system` (main.rs:208):
behind and above the marble. -/
def camera_offset : Vec3 := ⟨0, 5, -9⟩

/-- The `lerp_speed` constant of `camera_follow_system` (main.rs:218). -/
def lerp_speed : ℚ := 10

/-- The `target_camera_pos` computed by `camera_follow_system`
(main.rs:211-215): follow the marble in x and z, keep a fixed height offset
above its y. -/
def targetCameraPos (marblePos : Vec3) : Vec3 :=
  ⟨marblePos.x, marblePos.y + camera_offset.y, marblePos.z + camera_offset.z⟩

/-- The `new_pos` computed by `camera_follow_system` (main.rs:219-220):
`current_pos.lerp(target_camera_pos, lerp_speed * time.delta_seconds())`. -/
def cameraNewPos (currentPos marblePos : Vec3) (dt : ℚ) : Vec3 :=
  currentPos.lerp (targetCameraPos marblePos) (lerp_speed * dt)

/-- The `look_target` computed by `camera_follow_system` (main.rs:226-230)
from the already-updated camera translation: same x, slightly down, ahead
along z. -/
def lookTarget (camPos : Vec3) : Vec3 :=
  ⟨camPos.x, camPos.y - 2, camPos.z + 10⟩

/-- The body of `camera_follow_system` once both queries have succeeded
(main.rs:207-231): move the camera translation to the lerped position, then
`look_at` the forward-and-down target with up `Vec3::Y`. -/
def cameraFollowStep (camera marble : Transform) (dt : ℚ) : Transform :=
  let new_pos := cameraNewPos camera.translation marble.translation dt
  Transform.look_at { camera with translation := new_pos } (lookTarget new_pos) Vec3.unitY

/-- The whole `camera_follow_system` run against the results of the camera
and marble queries: both `get_single` calls must match exactly one entity,
otherwise the `if let (Ok .., Ok ..)` guard skips the body and the camera
list is returned unchanged (main.rs:199-233). -/
def cameraFollowSystem (cams marbles : List Transform) (dt : ℚ) : List Transform :=
  match cams, marbles with
  | [c], [m] => [cameraFollowStep c m dt]
  | cs, _ => cs

/-! Scene bootstrap (`setup_scene`, main.rs:29-174). Only the physics-relevant
data of each spawned bundle is embedded: translation, rotation, collider
extents and the dynamic parameters of the marble. The slope angle is
`5.0_f32.to_radians()` in the source; degree-to-radian conversion is a
float-library operation, so the embedded scene is parametric in the
converted angle, which every sloped piece shares. -/

/-- Track dimension `track_width` (main.rs:49). -/
def track_width : ℚ := 8

/-- Track dimension `track_depth` (main.rs:48). -/
def track_depth : ℚ := 2000

/-- Track dimension `track_thickness` (main.rs:50). -/
def track_thickness : ℚ := 3 / 10

/-- Track dimension `wall_height` (main.rs:51). -/
def wall_height : ℚ := 8 / 10

/-- Track dimension `wall_thickness` (main.rs:52). -/
def wall_thickness : ℚ := 2 / 10

/-- Data of a static track piece: its pose and cuboid collider half extents. -/
structure StaticBody where
  translation : Vec3
  rotation : Rotation
  colliderHalfExtents : Vec3
deriving DecidableEq, Repr

/-- The track floor spawned by `setup_scene` (main.rs:56-67), parametric in
the radian slope angle. -/
def floorBody (slope : ℚ) : StaticBody :=
  { translation := ⟨0, 0, 0⟩
    rotation := .rotX slope
    colliderHalfExtents := ⟨track_width / 2, track_thickness / 2, track_depth / 2⟩ }

/-- The left wall spawned by `setup_scene` (main.rs:70-84). -/
def leftWall (slope : ℚ) : StaticBody :=
  { translation := ⟨-track_width / 2 - wall_thickness / 2, wall_height / 2, 0⟩
    rotation := .rotX slope
    colliderHalfExtents := ⟨wall_thickness / 2, wall_height / 2, track_depth / 2⟩ }

/-- The right wall spawned by `setup_scene` (main.rs:87-101). -/
def rightWall (slope : ℚ) : StaticBody :=
  { translation := ⟨track_width / 2 + wall_thickness / 2, wall_height / 2, 0⟩
    rotation := .rotX slope
    colliderHalfExtents := ⟨wall_thickness / 2, wall_height / 2, track_depth / 2⟩ }

/-- Data of the dynamic marble bundle spawned by `setup_scene`
(main.rs:104-126). -/
structure MarbleSpawn where
  translation : Vec3
  colliderRadius : ℚ
  restitution : ℚ
  friction : ℚ
  density : ℚ
  velocity : Velocity
deriving DecidableEq, Repr

/-- The marble as spawned: elevated at the back of the sloped track with a
small forward push. -/
def marbleSpawn : MarbleSpawn :=
  { translation := ⟨0, 2, -8⟩
    colliderRadius := 3 / 10
    restitution := 3 / 10
    friction := 4 / 10
    density := 1
    velocity := { linvel := ⟨0, 0, 2⟩, angvel := Vec3.zero } }

/-- Embedding of `TimestepMode` from bevy_rapier, with the two constructors
the configuration space offers. -/
inductive TimestepMode where
  | Fixed (dt : ℚ) (substeps : Nat) : TimestepMode
  | Variable (max_dt time_scale : ℚ) (substeps : Nat) : TimestepMode
deriving DecidableEq, Repr

/-- Embedding of the `RapierConfiguration` resource fields set by
`setup_scene` (main.rs:162-173). -/
structure RapierConfig where
  gravity : Vec3
  physics_pipeline_active : Bool
  query_pipeline_active : Bool
  timestep_mode : TimestepMode
  scaled_shape_subdivision : Nat
  force_update_from_transform_changes : Bool
deriving DecidableEq, Repr

/-- The `RapierConfiguration` value inserted by `setup_scene`: gravity
`(0, -9.81, 0)` and a variable timestep capped at `1/60`. -/
def rapierConfig : RapierConfig :=
  { gravity := ⟨0, -981 / 100, 0⟩
    physics_pipeline_active := true
    query_pipeline_active := true
    timestep_mode := .Variable (1 / 60) 1 1
    scaled_shape_subdivision := 10
    force_update_from_transform_changes := false }

/-! Per-frame scheduling (`main`, main.rs:12-27). The app registers
`setup_scene` in `Startup` and the tuple
`(camera_follow_system, marble_control_system)` in `Update`. A Bevy system
tuple without `.chain()`, `.before` or `.after` adds its systems with no
ordering constraint between them, so both interleavings are admissible
executions of the Update schedule. The physics step itself belongs to the
external Rapier plugin and is kept abstract as a function on the world. -/

/-- World state for a bootstrapped frame: exactly one marble (transform and
velocity) and one camera. -/
structure World where
  marbleTransform : Transform
  marbleVelocity : Velocity
  cameraTransform : Transform
deriving DecidableEq, Repr

/-- One run of `marble_control_system` on a bootstrapped world. -/
def runMarbleControl (k : KeyState) (w : World) : World :=
  { w with marbleVelocity := marbleControlVelocity k w.marbleVelocity }

/-- One run of `camera_follow_system` on a bootstrapped world. -/
def runCameraFollow (dt : ℚ) (w : World) : World :=
  { w with cameraTransform := cameraFollowStep w.cameraTransform w.marbleTransform dt }

/-- The two interleavings Bevy may pick for the unordered Update tuple
`(camera_follow_system, marble_control_system)` registered in `main`. -/
inductive UpdateOrder where
  | camThenControl : UpdateOrder
  | controlThenCam : UpdateOrder
deriving DecidableEq, Repr

/-- One execution of the Update schedule as registered by `main`
(main.rs:25): the two systems run in whichever admissible order the
scheduler picked. -/
def runUpdateSchedule (o : UpdateOrder) (k : KeyState) (dt : ℚ) (w : World) : World :=
  match o with
  | .camThenControl => runMarbleControl k (runCameraFollow dt w)
  | .controlThenCam => runCameraFollow dt (runMarbleControl k w)

/-- Modelled from the spec: the physics step is owned by the external physics
collaborator (the Rapier plugin added in main.rs:22), which applies gravity,
collision and velocity integration to the marble; it is kept abstract here
as an arbitrary function on the world. The source registers no ordering
between its own Update systems and the physics step of the plugin, whose
default placement runs the step in `PostUpdate`, after the app Update
systems within the frame. -/
def runFrame (physicsStep : World → World) (o : UpdateOrder) (k : KeyState) (dt : ℚ)
    (w : World) : World :=
  physicsStep (runUpdateSchedule o k dt w)

/-- The per-frame ordering the specification asserts: physics step, then the
input-to-motion controller, then the camera tracking controller. -/
def claimedFrame (physicsStep : World → World) (k : KeyState) (dt : ℚ) (w : World) : World :=
  runCameraFollow dt (runMarbleControl k (physicsStep w))

/-- A concrete physics step used to witness scheduling facts: it advances the
marble translation by one unit along the track axis, as an integration step
may. -/
def demoPhysicsStep (w : World) : World :=
  { w with marbleTransform := { w.marbleTransform with
      translation := w.marbleTransform.translation + ⟨0, 0, 1⟩ } }

/-- A concrete bootstrapped world: the marble and camera at their spawn
poses. -/
def demoWorld : World :=
  { marbleTransform := { translation := ⟨0, 2, -8⟩, rotation := .identity }
    marbleVelocity := { linvel := ⟨0, 0, 2⟩, angvel := Vec3.zero }
    cameraTransform := { translation := ⟨0, 6, -18⟩, rotation := .identity } }

/-! Theorems. -/

/-- Componentwise description of vector subtraction. -/
theorem Vec3.sub_def (a b : Vec3) : a - b = ⟨a.x - b.x, a.y - b.y, a.z - b.z⟩ := rfl

/-- Componentwise description of vector addition. -/
theorem Vec3.add_def (a b : Vec3) : a + b = ⟨a.x + b.x, a.y + b.y, a.z + b.z⟩ := rfl

/-- Interpolating all the way (factor one) lands exactly on the endpoint. -/
theorem lerpQ_one (a b : ℚ) : lerpQ a b 1 = b := by
  unfold lerpQ
  ring

/-- For a factor between zero and one, interpolation stays inside the segment
spanned by its endpoints. -/
theorem lerpQ_between (a b s : ℚ) (h0 : 0 ≤ s) (h1 : s ≤ 1) :
    min a b ≤ lerpQ a b s ∧ lerpQ a b s ≤ max a b := by
  unfold lerpQ
  rcases le_total a b with hab | hab
  · rw [min_eq_left hab, max_eq_right hab]
    constructor <;> nlinarith
  · rw [min_eq_right hab, max_eq_left hab]
    constructor <;> nlinarith

/-- Lying in the closed segment between `a` and `b`: the no-overshoot
condition for one coordinate. -/
def betweenQ (a b x : ℚ) : Prop := min a b ≤ x ∧ x ≤ max a b

/-- The look direction of `camera_follow_system` relative to the new camera
position is the constant `(0, -2, 10)`. -/
theorem lookTarget_sub (p : Vec3) : lookTarget p - p = ⟨0, -2, 10⟩ := by
  rw [Vec3.sub_def]
  unfold lookTarget
  simp only [Vec3.mk.injEq]
  refine ⟨by ring, by ring, by ring⟩

/-- The rotation written by one camera step is always the orientation looking
along `(0, -2, 10)` with up `Y`, whatever the inputs. -/
theorem cameraFollowStep_rotation_eq (cam marble : Transform) (dt : ℚ) :
    (cameraFollowStep cam marble dt).rotation = .lookAlong ⟨0, -2, 10⟩ Vec3.unitY := by
  show Rotation.lookAlong
      (lookTarget (cameraNewPos cam.translation marble.translation dt) -
        cameraNewPos cam.translation marble.translation dt) Vec3.unitY = _
  rw [lookTarget_sub]

/-- C1, counterexample: the source lerps with the unclamped factor
`lerp_speed * dt`; at `dt = 1/5` the factor is `2 ≥ 1`, yet the new camera
position is not the target, and its y coordinate has overshot past the
segment from the current position to the target. -/
theorem camera_smoothing_clamp_cex :
    1 ≤ lerp_speed * (1 / 5) ∧
    cameraNewPos ⟨0, 0, 0⟩ ⟨0, -4, 10⟩ (1 / 5) ≠ targetCameraPos ⟨0, -4, 10⟩ ∧
    ¬ betweenQ (0 : ℚ) (targetCameraPos ⟨0, -4, 10⟩).y
      (cameraNewPos ⟨0, 0, 0⟩ ⟨0, -4, 10⟩ (1 / 5)).y := by
  refine ⟨by norm_num [lerp_speed], ?_, ?_⟩
  · norm_num [cameraNewPos, Vec3.lerp, lerpQ, targetCameraPos, camera_offset,
      lerp_speed, Vec3.mk.injEq]
  · norm_num [betweenQ, cameraNewPos, Vec3.lerp, lerpQ, targetCameraPos,
      camera_offset, lerp_speed]

/-- C1, amended: one camera smoothing step computes
`new = lerp(current, target, lerp_speed * dt)` with an unclamped factor;
when the factor equals one the new position is exactly the target, and as
long as the factor is at most one the step never overshoots past the target
in any coordinate. -/
theorem camera_smoothing_step (current marblePos : Vec3) (dt : ℚ) (h0 : 0 ≤ dt) :
    cameraNewPos current marblePos dt =
      current.lerp (targetCameraPos marblePos) (lerp_speed * dt) ∧
    (lerp_speed * dt = 1 →
      cameraNewPos current marblePos dt = targetCameraPos marblePos) ∧
    (lerp_speed * dt ≤ 1 →
      betweenQ current.x (targetCameraPos marblePos).x
        (cameraNewPos current marblePos dt).x ∧
      betweenQ current.y (targetCameraPos marblePos).y
        (cameraNewPos current marblePos dt).y ∧
      betweenQ current.z (targetCameraPos marblePos).z
        (cameraNewPos current marblePos dt).z) := by
  refine ⟨rfl, ?_, ?_⟩
  · intro h1
    show Vec3.lerp current (targetCameraPos marblePos) (lerp_speed * dt) = _
    rw [h1]
    unfold Vec3.lerp
    rw [lerpQ_one, lerpQ_one, lerpQ_one]
  · intro h1
    have hs0 : 0 ≤ lerp_speed * dt := by
      have : (0 : ℚ) ≤ 10 := by norm_num
      simpa [lerp_speed] using mul_nonneg this h0
    exact ⟨lerpQ_between current.x (targetCameraPos marblePos).x _ hs0 h1,
      lerpQ_between current.y (targetCameraPos marblePos).y _ hs0 h1,
      lerpQ_between current.z (targetCameraPos marblePos).z _ hs0 h1⟩

/-- Witness for the amended C1 theorem at `current = 0`, marble `(1, 2, 3)`,
`dt = 1/10`. -/
theorem camera_smoothing_step_witness :
    cameraNewPos ⟨0, 0, 0⟩ ⟨1, 2, 3⟩ (1 / 10) =
      Vec3.lerp ⟨0, 0, 0⟩ (targetCameraPos ⟨1, 2, 3⟩) (lerp_speed * (1 / 10)) ∧
    (lerp_speed * (1 / 10) = 1 →
      cameraNewPos ⟨0, 0, 0⟩ ⟨1, 2, 3⟩ (1 / 10) = targetCameraPos ⟨1, 2, 3⟩) ∧
    (lerp_speed * (1 / 10) ≤ 1 →
      betweenQ (0 : ℚ) (targetCameraPos ⟨1, 2, 3⟩).x
        (cameraNewPos ⟨0, 0, 0⟩ ⟨1, 2, 3⟩ (1 / 10)).x ∧
      betweenQ (0 : ℚ) (targetCameraPos ⟨1, 2, 3⟩).y
        (cameraNewPos ⟨0, 0, 0⟩ ⟨1, 2, 3⟩ (1 / 10)).y ∧
      betweenQ (0 : ℚ) (targetCameraPos ⟨1, 2, 3⟩).z
        (cameraNewPos ⟨0, 0, 0⟩ ⟨1, 2, 3⟩ (1 / 10)).z) :=
  camera_smoothing_step ⟨0, 0, 0⟩ ⟨1, 2, 3⟩ (1 / 10) (by norm_num)

/-- C2: one run of the controller writes lateral velocity `+control_force`
when only ArrowLeft is held, `-control_force` when only ArrowRight is held,
and `0` when both or neither are held. -/
theorem marble_control_lateral (k : KeyState) (v : Velocity) :
    (marbleControlVelocity k v).linvel.x =
      if k.left && !k.right then control_force
      else if k.right && !k.left then -control_force
      else 0 := by
  rcases k with ⟨l, r⟩
  cases l <;> cases r <;>
    simp [marbleControlVelocity, lateralForce, control_force]

/-- C3: the controller leaves the vertical (y) and forward (z) linear
velocity components unchanged for every keyboard state and prior velocity. -/
theorem marble_control_preserves_y_z (k : KeyState) (v : Velocity) :
    (marbleControlVelocity k v).linvel.y = v.linvel.y ∧
    (marbleControlVelocity k v).linvel.z = v.linvel.z :=
  ⟨rfl, rfl⟩

/-- C10: the controller leaves the angular velocity entirely unchanged for
every keyboard state and prior velocity. -/
theorem marble_control_preserves_angvel (k : KeyState) (v : Velocity) :
    (marbleControlVelocity k v).angvel = v.angvel :=
  rfl

/-- C4: the camera orientation after one tracking step does not depend on the
lateral (x) coordinate of the marble: two runs that differ only in marble x
produce equal rotations, and that rotation is always the orientation looking
along the fixed forward-and-down direction `(0, -2, 10)` from the camera
position. -/
theorem camera_orientation_independent_of_x (cam m1 m2 : Transform) (dt : ℚ)
    (hy : m1.translation.y = m2.translation.y)
    (hz : m1.translation.z = m2.translation.z) :
    (cameraFollowStep cam m1 dt).rotation = (cameraFollowStep cam m2 dt).rotation ∧
    (cameraFollowStep cam m1 dt).rotation = .lookAlong ⟨0, -2, 10⟩ Vec3.unitY := by
  rw [cameraFollowStep_rotation_eq, cameraFollowStep_rotation_eq]
  exact ⟨rfl, rfl⟩

/-- Witness for C4: two marble poses differing only in x give the same camera
rotation. -/
theorem camera_orientation_independent_of_x_witness :
    (cameraFollowStep { translation := ⟨0, 6, -18⟩, rotation := .identity }
        { translation := ⟨1, 2, -8⟩, rotation := .identity } (1 / 60)).rotation =
      (cameraFollowStep { translation := ⟨0, 6, -18⟩, rotation := .identity }
        { translation := ⟨-3, 2, -8⟩, rotation := .identity } (1 / 60)).rotation ∧
    (cameraFollowStep { translation := ⟨0, 6, -18⟩, rotation := .identity }
        { translation := ⟨1, 2, -8⟩, rotation := .identity } (1 / 60)).rotation =
      .lookAlong ⟨0, -2, 10⟩ Vec3.unitY :=
  camera_orientation_independent_of_x
    { translation := ⟨0, 6, -18⟩, rotation := .identity }
    { translation := ⟨1, 2, -8⟩, rotation := .identity }
    { translation := ⟨-3, 2, -8⟩, rotation := .identity } (1 / 60) rfl rfl

/-- C5: the tracking target follows the marble exactly in x and z and sits a
constant positive vertical offset above the marble. -/
theorem camera_target_follows_marble (m : Vec3) :
    targetCameraPos m = ⟨m.x, m.y + camera_offset.y, m.z + camera_offset.z⟩ ∧
    (targetCameraPos m).x = m.x ∧
    (targetCameraPos m).y - m.y = camera_offset.y ∧
    (targetCameraPos m).z - m.z = camera_offset.z ∧
    0 < camera_offset.y := by
  refine ⟨rfl, rfl, ?_, ?_, by norm_num [camera_offset]⟩
  · show m.y + camera_offset.y - m.y = camera_offset.y
    ring
  · show m.z + camera_offset.z - m.z = camera_offset.z
    ring

/-- C7: when the marble query does not match exactly one entity the control
system changes nothing, and when the camera or marble query does not match
exactly one entity the camera system changes nothing; both are total
functions, so neither fails. -/
theorem missing_entities_noop (k : KeyState) (vs : List Velocity)
    (cams marbles : List Transform) (dt : ℚ)
    (hv : vs.length ≠ 1) (hc : cams.length ≠ 1 ∨ marbles.length ≠ 1) :
    marbleControlSystem k vs = vs ∧ cameraFollowSystem cams marbles dt = cams := by
  constructor
  · rcases vs with _ | ⟨v, _ | ⟨w, rest⟩⟩
    · rfl
    · exact absurd rfl hv
    · rfl
  · rcases cams with _ | ⟨c, _ | ⟨c2, crest⟩⟩
    · rfl
    · rcases marbles with _ | ⟨m, _ | ⟨m2, mrest⟩⟩
      · rfl
      · rcases hc with hc | hc
        · exact absurd rfl hc
        · exact absurd rfl hc
      · rfl
    · rfl

/-- Witness for C7 at empty query results. -/
theorem missing_entities_noop_witness :
    marbleControlSystem ⟨false, false⟩ [] = ([] : List Velocity) ∧
    cameraFollowSystem [] [] 0 = ([] : List Transform) :=
  missing_entities_noop ⟨false, false⟩ [] [] [] 0 (by simp) (Or.inl (by simp))

/-- C8: the walls sit at lateral centers `±(width/2 + thickness/2) = ±4.1`,
are height-centered at `wall_height/2`, and both share the rotation of the
floor, for every slope angle. -/
theorem wall_placement (slope : ℚ) :
    (leftWall slope).translation.x = -(track_width / 2 + wall_thickness / 2) ∧
    (leftWall slope).translation.x = -(41 / 10) ∧
    (rightWall slope).translation.x = track_width / 2 + wall_thickness / 2 ∧
    (rightWall slope).translation.x = 41 / 10 ∧
    (leftWall slope).translation.y = wall_height / 2 ∧
    (rightWall slope).translation.y = wall_height / 2 ∧
    (leftWall slope).rotation = (floorBody slope).rotation ∧
    (rightWall slope).rotation = (floorBody slope).rotation := by
  refine ⟨?_, ?_, ?_, ?_, rfl, rfl, rfl, rfl⟩ <;>
    norm_num [leftWall, rightWall, track_width, wall_thickness]

/-- C9: the bootstrap sets gravity `(0, -9.81, 0)`, a variable timestep mode
with maximum step `1/60`, and spawns the marble at `(0, 2, -8)` with initial
linear velocity `(0, 0, 2)`. -/
theorem bootstrap_configuration :
    rapierConfig.gravity = ⟨0, -(981 / 100), 0⟩ ∧
    rapierConfig.timestep_mode = .Variable (1 / 60) 1 1 ∧
    marbleSpawn.translation = ⟨0, 2, -8⟩ ∧
    marbleSpawn.velocity.linvel = ⟨0, 0, 2⟩ := by
  refine ⟨?_, ?_, rfl, rfl⟩
  · show Vec3.mk 0 (-981 / 100) 0 = ⟨0, -(981 / 100), 0⟩
    norm_num
  · rfl

/-- C6: the schedule registered by `main` runs both Update systems before the
physics step of the frame, so the camera controller reads the marble
translation produced by the previous physics step, not the one from the same
frame as the claim requires: at a concrete world and physics displacement the
two orderings place the camera at different translations. -/
theorem camera_runs_before_frame_physics :
    (runFrame demoPhysicsStep .controlThenCam ⟨false, false⟩ (1 / 100)
        demoWorld).cameraTransform.translation ≠
    (claimedFrame demoPhysicsStep ⟨false, false⟩ (1 / 100)
        demoWorld).cameraTransform.translation := by
  norm_num [runFrame, claimedFrame, runUpdateSchedule, runMarbleControl,
    runCameraFollow, demoPhysicsStep, demoWorld, cameraFollowStep,
    Transform.look_at, cameraNewPos, targetCameraPos, Vec3.lerp, lerpQ,
    camera_offset, lerp_speed, marbleControlVelocity, lateralForce,
    control_force, Vec3.mk.injEq, Vec3.add_def]

end MarbleRun
